import Mathlib

/-!
Verification of the question-flow state machine and its persistence contract
for the `newedges` staff-onboarding bot.

Shallow embedding of the Python sources:
  * `telegram_bot/database.py`          — storage operations over an explicit `DB` state
  * `telegram_bot/handlers/registration.py` — flow handlers as pure state transformers
  * `telegram_bot/handlers/start.py`    — start trigger
  * `telegram_bot/keyboards/inline.py`  — choice keyboard rendering
  * `django_app/bot_admin/models.py`    — record shapes

SQL rows become Lean structures; `NOW()` becomes an explicit time argument `t : Nat`;
nullable columns become `Option`; the aiogram FSM session becomes a `Session` value;
outbound messages are collected in a `sent : List String` log.
-/

/-- Row of `bot_admin_question` (models.Question). `choices` is the raw
comma-separated admin string, `field_name` the optional structured-field key. -/
structure Question where
  id : Nat
  order : Nat
  question_type : String
  text : String
  choices : Option String
  image : Option String
  field_name : Option String
  is_required : Bool
  is_active : Bool
deriving DecidableEq

/-- Row of `bot_admin_userprofile` (models.UserProfile). -/
structure UserProfile where
  id : Nat
  telegram_id : Nat
  username : Option String
  first_name : Option String
  last_name : Option String
  current_question_id : Option Nat
  is_team_member : Bool
  is_registration_complete : Bool
  created_at : Nat
  updated_at : Nat
deriving DecidableEq

/-- Row of `bot_admin_userresponse` (models.UserResponse); the DB enforces
`unique_together (user, question)`. -/
structure UserResponse where
  user_id : Nat
  question_id : Nat
  text_answer : Option String
  photo : Option String
  created_at : Nat
  updated_at : Nat
deriving DecidableEq

/-- Row of `bot_admin_staffapplication` (models.StaffApplication); document photo
columns hold stored-file path strings. -/
structure StaffApplication where
  user_id : Nat
  status : String
  position : Option String
  full_name : Option String
  address : Option String
  phone : Option String
  email : Option String
  passport_main : Option String
  passport_registration : Option String
  snils : Option String
  inn : Option String
  marital_status : Option String
  children : Option String
  emergency_contact : Option String
  additional_info : Option String
  created_at : Nat
  updated_at : Nat
  completed_at : Option Nat
deriving DecidableEq

/-- The whole persistent store. `next_user_id` models the profile PK sequence. -/
structure DB where
  users : List UserProfile
  questions : List Question
  responses : List UserResponse
  applications : List StaffApplication
  next_user_id : Nat
deriving DecidableEq

/-- aiogram FSM state of one chat (states/registration.py); `cleared` is the
state after `state.clear()`. -/
inductive FsmState where
  | cleared
  | asking_team_member
  | asking_position
  | answering_questions
deriving DecidableEq

/-- aiogram FSM session: state plus the `state.update_data` keys the flow uses. -/
structure Session where
  fsm : FsmState
  current_question_id : Option Nat
  current_question_order : Option Nat
  position : Option String
deriving DecidableEq

/-- Session right after `state.clear()`: no state, no data. -/
def clearedSession : Session :=
  { fsm := FsmState.cleared, current_question_id := none,
    current_question_order := none, position := none }

/-- Bot-side world: the store, one chat session and the outbound message log
(NotificationSink), messages appended in send order. -/
structure BotState where
  db : DB
  session : Session
  sent : List String
deriving DecidableEq

/-! ## Catalog operations (database.py, question section) -/

/-- `ORDER BY "order" LIMIT 1` over a candidate list: the element with minimal
`order`; on ties the earlier row is kept (one deterministic refinement of the
unspecified SQL tie-break). -/
def minByOrder : List Question → Option Question
  | [] => none
  | q :: rest =>
    match minByOrder rest with
    | none => some q
    | some m => if m.order < q.order then some m else some q

/-- `get_first_question` (database.py 186-194): first active question by `order`. -/
def get_first_question (qs : List Question) : Option Question :=
  minByOrder (qs.filter (fun q => q.is_active))

/-- `get_next_question` (database.py 169-183): active question with the smallest
`order` strictly greater than `current_order`. -/
def get_next_question (qs : List Question) (current_order : Nat) : Option Question :=
  minByOrder (qs.filter (fun q => q.is_active && decide (current_order < q.order)))

/-- `get_question_by_id` (database.py 157-166). -/
def get_question_by_id (qs : List Question) (question_id : Nat) : Option Question :=
  qs.find? (fun q => decide (q.id = question_id))

/-! ## User operations (database.py) -/

/-- `get_user` (database.py 134-143): lookup by telegram id. -/
def get_user (telegram_id : Nat) (db : DB) : Option UserProfile :=
  db.users.find? (fun u => decide (u.telegram_id = telegram_id))

/-- `get_or_create_user` (database.py 79-104): returns the existing row untouched,
or inserts a fresh profile with both flags false. -/
def get_or_create_user (t : Nat) (telegram_id : Nat)
    (username first_name last_name : Option String) (db : DB) :
    UserProfile × DB :=
  match get_user telegram_id db with
  | some u => (u, db)
  | none =>
    let u : UserProfile :=
      { id := db.next_user_id, telegram_id := telegram_id, username := username,
        first_name := first_name, last_name := last_name,
        current_question_id := none, is_team_member := false,
        is_registration_complete := false, created_at := t, updated_at := t }
    (u, { db with users := db.users ++ [u], next_user_id := db.next_user_id + 1 })

/-- `set_current_question` (database.py 123-131): UPDATE of `current_question_id`
keyed by telegram id. -/
def set_current_question (t : Nat) (telegram_id : Nat) (question_id : Option Nat)
    (db : DB) : DB :=
  { db with users := db.users.map (fun u =>
      if decide (u.telegram_id = telegram_id) then
        { u with current_question_id := question_id, updated_at := t }
      else u) }

/-- `update_user` (database.py 107-120) specialised to its call with
`is_team_member` (registration.py 81). -/
def update_user_team (t : Nat) (telegram_id : Nat) (b : Bool) (db : DB) : DB :=
  { db with users := db.users.map (fun u =>
      if decide (u.telegram_id = telegram_id) then
        { u with is_team_member := b, updated_at := t }
      else u) }

/-- `update_user` (database.py 107-120) specialised to its call with
`is_registration_complete=True, current_question_id=None` (registration.py 318). -/
def update_user_completed (t : Nat) (telegram_id : Nat) (db : DB) : DB :=
  { db with users := db.users.map (fun u =>
      if decide (u.telegram_id = telegram_id) then
        { u with is_registration_complete := true, current_question_id := none,
                 updated_at := t }
      else u) }

/-! ## Response operations (database.py 198-232) -/

/-- The `WHERE user_id = %s AND question_id = %s` key test. -/
def responseKeyMatches (user_id question_id : Nat) (r : UserResponse) : Bool :=
  decide (r.user_id = user_id ∧ r.question_id = question_id)

/-- `save_response` (database.py 198-232): SELECT the key; UPDATE both value
columns and `updated_at` if a row exists, else INSERT a fresh row. -/
def save_response (t : Nat) (user_id question_id : Nat)
    (text_answer photo_path : Option String) (db : DB) : DB :=
  match db.responses.find? (responseKeyMatches user_id question_id) with
  | some _ =>
    { db with responses := db.responses.map (fun r =>
        if responseKeyMatches user_id question_id r then
          { r with text_answer := text_answer, photo := photo_path, updated_at := t }
        else r) }
  | none =>
    { db with responses := db.responses ++
        [{ user_id := user_id, question_id := question_id,
           text_answer := text_answer, photo := photo_path,
           created_at := t, updated_at := t }] }

/-! ## Application operations (database.py 254-322) -/

/-- Application lookup by profile id (`WHERE user_id = %s`). -/
def find_application (user_id : Nat) (db : DB) : Option StaffApplication :=
  db.applications.find? (fun a => decide (a.user_id = user_id))

/-- `get_or_create_application` (database.py 254-279). -/
def get_or_create_application (t : Nat) (user_id : Nat) (db : DB) : DB :=
  match find_application user_id db with
  | some _ => db
  | none =>
    { db with applications := db.applications ++
        [{ user_id := user_id, status := "in_progress", position := none,
           full_name := none, address := none, phone := none, email := none,
           passport_main := none, passport_registration := none,
           snils := none, inn := none, marital_status := none, children := none,
           emergency_contact := none, additional_info := none,
           created_at := t, updated_at := t, completed_at := none }] }

/-- The column assignment performed by `update_application`'s dynamic
`SET field = %s` for the column names the bot ever passes; an unknown column
would be a SQL error, unreachable because `save_to_application` whitelists. -/
def apply_field (a : StaffApplication) (field : String) (value : String) :
    StaffApplication :=
  match field with
  | "full_name" => { a with full_name := some value }
  | "address" => { a with address := some value }
  | "phone" => { a with phone := some value }
  | "email" => { a with email := some value }
  | "passport_main" => { a with passport_main := some value }
  | "passport_registration" => { a with passport_registration := some value }
  | "snils" => { a with snils := some value }
  | "inn" => { a with inn := some value }
  | "marital_status" => { a with marital_status := some value }
  | "children" => { a with children := some value }
  | "emergency_contact" => { a with emergency_contact := some value }
  | "additional_info" => { a with additional_info := some value }
  | _ => a

/-- `update_application` (database.py 282-304) called with one structured column
(registration.py 148); always also sets `updated_at = NOW()`. -/
def update_application_field (t : Nat) (user_id : Nat) (field : String)
    (value : String) (db : DB) : DB :=
  { db with applications := db.applications.map (fun a =>
      if decide (a.user_id = user_id) then
        { apply_field a field value with updated_at := t }
      else a) }

/-- `update_application` (database.py 282-304) called with `position=...`
(registration.py 106). -/
def update_application_position (t : Nat) (user_id : Nat) (position : String)
    (db : DB) : DB :=
  { db with applications := db.applications.map (fun a =>
      if decide (a.user_id = user_id) then
        { a with position := some position, updated_at := t }
      else a) }

/-- `complete_application` (database.py 307-322): unconditional UPDATE that sets
`status='completed'` and `completed_at = NOW()`. -/
def complete_application (t : Nat) (user_id : Nat) (db : DB) : DB :=
  { db with applications := db.applications.map (fun a =>
      if decide (a.user_id = user_id) then
        { a with status := "completed", completed_at := some t, updated_at := t }
      else a) }

/-! ## Message constants (registration.py 27-70, start.py 20-26, inline texts) -/

/-- registration.py `MISSION_MESSAGE`. -/
def MISSION_MESSAGE : String :=
  "\n<b>Отлично! Давай мы немножко расскажем о себе, а ты — о себе.</b>\n\nМы – команда увлеченных людей. Будем вместе создавать новое, экспериментировать и творить, развивая себя.\n\n<b>Наша Миссия</b>\nМы помогаем людям раскрывать новые грани себя и своей жизни через метафизические и психоэзотерические инструменты. Наша миссия — давать глубокое знание, которое позволяет понимать свои внутренние процессы, улучшать ментальное и энергетическое состояние и становиться авторами собственной жизни.\n"

/-- registration.py `VALUES_MESSAGE`. -/
def VALUES_MESSAGE : String :=
  "\n<b>А теперь о наших ценностях:</b>\n\n✨ <b>Осознанность</b> — понимание себя, своих состояний и причин происходящего.\n\n💎 <b>Честность с собой</b> — способность встречаться с истинными мотивами, страхами и желаниями.\n\n🔮 <b>Целостность</b> — внимание ко всем аспектам человека: ментальному, энергетическому, эмоциональному и физическому.\n\n💪 <b>Ответственность</b> — способность быть автором своей жизни и действий.\n\n📈 <b>Развитие</b> — постоянный рост, исследование, обучение, поиски новых смыслов и готовность двигаться к новому.\n\n💚 <b>Забота</b> — уважение к пути каждого человека, поддержка, экологичность. Комьюнити.\n\n🌊 <b>Глубина</b> — ориентация на внутренние трансформации, а не поверхностные изменения.\n\n⚡ <b>Скорость и Безопасность</b> — создание и использование инструментов, которые позволяют быстро получить результат.\n\n🎯 <b>Доступность</b> — по деньгам, пониманию материала и подаче информации.\n"

/-- registration.py `GOAL_MESSAGE`. -/
def GOAL_MESSAGE : String :=
  "\n<b>Наша цель</b>\n\nНаучить применять психологические и энергетические инструменты для улучшения жизни и достижения новых результатов, через исследование и исцеление своих граней.\n"

/-- registration.py `COMPLETION_MESSAGE`. -/
def COMPLETION_MESSAGE : String :=
  "\n🎉 <b>Спасибо, что рассказал о себе!</b>\n\nРады, что ты с нами!!! 💜\n\nТвои данные успешно сохранены. Если будут вопросы — пиши администратору.\n"

/-- registration.py 159/212: session lost at answer time. -/
def ERROR_RESTART_MESSAGE : String :=
  "Произошла ошибка. Попробуйте начать сначала: /start"

/-- registration.py 165/218/258: stale question id. -/
def QUESTION_NOT_FOUND_MESSAGE : String :=
  "Вопрос не найден. Попробуйте /start"

/-- registration.py 224: text received while the question expects a photo. -/
def PHOTO_REPROMPT_MESSAGE : String :=
  "📷 Пожалуйста, отправьте фото, а не текст."

/-- registration.py 172/230/265: profile missing at answer time. -/
def USER_NOT_FOUND_MESSAGE : String :=
  "Пользователь не найден. Попробуйте /start"

/-- registration.py 131: empty catalog after the position answer. -/
def NO_QUESTIONS_MESSAGE : String :=
  "Вопросов пока нет. Обратитесь к администратору."

/-- start.py 47-50: short-circuit for an already-registered applicant. -/
def ALREADY_COMPLETE_MESSAGE : String :=
  "🎉 <b>С возвращением!</b>\n\nТы уже завершил регистрацию. Если хочешь обновить данные, свяжись с администратором."

/-- start.py `WELCOME_MESSAGE` (sent as caption or plain text). -/
def WELCOME_MESSAGE : String :=
  "\n<b>Привет, дорогой друг!</b> 👋\n\nТебя приветствует бот школы <b>«Новые грани»</b>.\n\nОбычно в этот бот случайно не попадают. Если ты хочешь стать частью команды или уже являешься ей, пиши /start и поехали!\n"

/-- start.py 62-65: team-membership question. -/
def TEAM_QUESTION_MESSAGE : String :=
  "Ты уже являешься частью команды <b>«Новые грани»</b>?"

/-! ## Python string primitives used by the keyboard round trip -/

/-- Python `str.strip()` on the character list (whitespace at both ends). -/
def pyStripChars (s : List Char) : List Char :=
  ((s.dropWhile Char.isWhitespace).reverse.dropWhile Char.isWhitespace).reverse

/-- Python `str.strip()`. -/
def pyStrip (s : String) : String := String.mk (pyStripChars s.data)

/-- Python `str.split(',')` accumulator: pieces between commas, in order. -/
def pySplitCommaAux : List Char → List Char → List (List Char)
  | acc, [] => [acc.reverse]
  | acc, c :: rest =>
    if c = ',' then acc.reverse :: pySplitCommaAux [] rest
    else pySplitCommaAux (c :: acc) rest

/-- Python `str.split(',')`. -/
def pySplitComma (s : String) : List String :=
  (pySplitCommaAux [] s.data).map (fun l => String.mk l)

/-- inline.py 20: `[c.strip() for c in choices.split(',')]`. -/
def choices_list (choices : String) : List String :=
  (pySplitComma choices).map pyStrip

/-- One inline keyboard button (aiogram InlineKeyboardButton). -/
structure InlineButton where
  text : String
  callback_data : String
deriving DecidableEq

/-- `get_choices_keyboard` (inline.py 18-28): one button per choice, label is the
choice itself, callback token is the choice tagged with the prefix string. -/
def get_choices_keyboard (choices : String) : List InlineButton :=
  (choices_list choices).map (fun c =>
    { text := c, callback_data := "choice_" ++ c })

/-- Python `str.replace(old, new)` on character lists, fuelled: scans left to
right, replacing each non-overlapping occurrence of `old`; faithful for
nonempty `old` whenever `fuel` is at least the input length. -/
def pyReplaceAux (old new : List Char) : Nat → List Char → List Char
  | 0, s => s
  | _ + 1, [] => []
  | fuel + 1, c :: rest =>
    if old.isPrefixOf (c :: rest) then
      new ++ pyReplaceAux old new fuel ((c :: rest).drop old.length)
    else c :: pyReplaceAux old new fuel rest

/-- Python `str.replace(old, new)`. -/
def pyReplace (s old new : String) : String :=
  String.mk (pyReplaceAux old.data new.data s.data.length s.data)

/-- registration.py 270: `answer = callback.data.replace("choice_", "")`. -/
def choice_answer (callback_data : String) : String :=
  pyReplace callback_data "choice_" ""

/-- Occurrence test: does `old` occur as a contiguous substring? -/
def containsSub (old : List Char) : List Char → Bool
  | [] => old.isEmpty
  | c :: rest => old.isPrefixOf (c :: rest) || containsSub old rest

/-! ## Registration flow handlers (registration.py, start.py) -/

/-- `save_to_application` (registration.py 135-149): skip on falsy field name,
skip silently outside the whitelist, otherwise one-column update. -/
def valid_fields : List String :=
  ["full_name", "address", "phone", "email",
   "passport_main", "passport_registration", "snils", "inn",
   "marital_status", "children", "emergency_contact", "additional_info"]

/-- `save_to_application` (registration.py 135-149). -/
def save_to_application (t : Nat) (user_id : Nat) (field_name : Option String)
    (value : String) (db : DB) : DB :=
  match field_name with
  | none => db
  | some f =>
    if f = "" then db
    else if f ∈ valid_fields then update_application_field t user_id f value db
    else db

/-- `send_question` (registration.py 331-357): the outbound payload always
carries the question text; media attachment and inline keyboard are pure
formatting (spec §4.3) and filesystem checks, abstracted away here. -/
def send_question_msgs (q : Question) : List String := [q.text]

/-- `move_to_next_question` (registration.py 288-328). -/
def move_to_next_question (t : Nat) (telegram_id : Nat) (current_question : Question)
    (st : BotState) : BotState :=
  match get_next_question st.db.questions current_question.order with
  | some q' =>
    let m1 : List String :=
      if current_question.field_name = some "full_name" then [GOAL_MESSAGE] else []
    let m2 : List String :=
      if q'.field_name = some "snils" then [VALUES_MESSAGE] else []
    { db := set_current_question t telegram_id (some q'.id) st.db,
      session := { st.session with
                   current_question_id := some q'.id,
                   current_question_order := some q'.order },
      sent := st.sent ++ m1 ++ m2 ++ send_question_msgs q' }
  | none =>
    let db1 := update_user_completed t telegram_id st.db
    let db2 :=
      match get_user telegram_id db1 with
      | some u => complete_application t u.id db1
      | none => db1
    { db := db2, session := clearedSession, sent := st.sent ++ [COMPLETION_MESSAGE] }

/-- `process_text_answer` (registration.py 205-245). -/
def process_text_answer (t : Nat) (telegram_id : Nat) (text : String)
    (st : BotState) : BotState :=
  match st.session.current_question_id with
  | none =>
    { st with sent := st.sent ++ [ERROR_RESTART_MESSAGE], session := clearedSession }
  | some qid =>
    match get_question_by_id st.db.questions qid with
    | none =>
      { st with sent := st.sent ++ [QUESTION_NOT_FOUND_MESSAGE], session := clearedSession }
    | some q =>
      if q.question_type = "photo" then
        { st with sent := st.sent ++ [PHOTO_REPROMPT_MESSAGE] }
      else
        match get_user telegram_id st.db with
        | none =>
          { st with sent := st.sent ++ [USER_NOT_FOUND_MESSAGE], session := clearedSession }
        | some u =>
          let db1 := save_response t u.id qid (some text) none st.db
          let db2 := save_to_application t u.id q.field_name text db1
          move_to_next_question t telegram_id q { st with db := db2 }

/-- `process_position` (registration.py 97-132). -/
def process_position (t : Nat) (telegram_id : Nat) (text : String)
    (st : BotState) : BotState :=
  let db1 :=
    match get_user telegram_id st.db with
    | some u => update_application_position t u.id text (get_or_create_application t u.id st.db)
    | none => st.db
  let sess1 := { st.session with position := some text }
  let sent1 := st.sent ++ [MISSION_MESSAGE]
  match get_first_question db1.questions with
  | some fq =>
    { db := set_current_question t telegram_id (some fq.id) db1,
      session := { sess1 with
                   fsm := FsmState.answering_questions,
                   current_question_id := some fq.id,
                   current_question_order := some fq.order },
      sent := sent1 ++ send_question_msgs fq }
  | none =>
    { db := db1, session := clearedSession, sent := sent1 ++ [NO_QUESTIONS_MESSAGE] }

/-- `cmd_start` (start.py 29-67). -/
def cmd_start (t : Nat) (telegram_id : Nat)
    (username first_name last_name : Option String) (st : BotState) : BotState :=
  let p := get_or_create_user t telegram_id username first_name last_name st.db
  if p.1.is_registration_complete then
    { db := p.2, session := clearedSession, sent := st.sent ++ [ALREADY_COMPLETE_MESSAGE] }
  else
    { db := p.2, session := { clearedSession with fsm := FsmState.asking_team_member },
      sent := st.sent ++ [WELCOME_MESSAGE, TEAM_QUESTION_MESSAGE] }

/-! ## Traversal of the catalog (spec §4.1 / §8, claim C1) -/

/-- Repeatedly apply `get_next_question` starting after order `o`; the fuel bounds
the number of steps and is instantiated with the catalog length. -/
def traverse_from (qs : List Question) : Nat → Nat → List Question
  | 0, _ => []
  | fuel + 1, o =>
    match get_next_question qs o with
    | none => []
    | some q => q :: traverse_from qs fuel q.order

/-- The full traversal: `get_first_question`, then `get_next_question` on the
current question's order until none is returned. -/
def traversal (qs : List Question) : List Question :=
  match get_first_question qs with
  | none => []
  | some q => q :: traverse_from qs qs.length q.order

/-- All orders strictly above `o` and strictly increasing along the list. -/
def ascendingFrom (o : Nat) : List Question → Bool
  | [] => true
  | q :: rest => decide (o < q.order) && ascendingFrom q.order rest

/-- Strictly increasing `order` along the list. -/
def strictlyAscending : List Question → Bool
  | [] => true
  | q :: rest => ascendingFrom q.order rest

/-! ## Failure-injected text-answer processing (claim C2)

Each `psycopg2` write in `process_text_answer` runs in its own connection and
commits independently (database.py); an exception in one write aborts the
handler but leaves earlier commits in place.  The schedule says which write
raises; a raised write itself has no effect (its transaction never commits). -/

/-- The stored (text, photo, updated_at) of the response row for a key, if any. -/
def response_state (user_id question_id : Nat) (db : DB) :
    Option (Option String × Option String × Nat) :=
  (db.responses.find? (responseKeyMatches user_id question_id)).map
    (fun r => (r.text_answer, r.photo, r.updated_at))

/-- All response rows stored for a (user, question) key. -/
def response_rows (user_id question_id : Nat) (db : DB) : List UserResponse :=
  db.responses.filter (responseKeyMatches user_id question_id)

/-- A response row does not carry a text answer and a photo at the same time. -/
def no_both (r : UserResponse) : Bool :=
  !(r.text_answer.isSome && r.photo.isSome)

/-- A `save_response` call that supplies exactly one of the two answer shapes. -/
def exactly_one (c : Nat × Option String × Option String) : Bool :=
  (c.2.1.isSome && !c.2.2.isSome) || (!c.2.1.isSome && c.2.2.isSome)

/-- Fold a list of `(t, text_answer, photo_path)` calls through `save_response`. -/
def apply_answers (user_id question_id : Nat) :
    List (Nat × Option String × Option String) → DB → DB
  | [], db => db
  | c :: rest, db =>
    apply_answers user_id question_id rest (save_response c.1 user_id question_id c.2.1 c.2.2 db)

/-! ## Generic list lemmas for keyed UPDATE / INSERT -/

theorem find?_map_ite {α : Type} (p : α → Bool) (g : α → α)
    (hg : ∀ a, p (g a) = p a) (l : List α) :
    (l.map (fun a => if p a then g a else a)).find? p = (l.find? p).map g := by
  induction l with
  | nil => rfl
  | cons x xs ih =>
    by_cases hx : p x
    · simp [List.find?_cons, hx, hg]
    · simp [List.find?_cons, hx, ih]

theorem filter_map_ite {α : Type} (p : α → Bool) (g : α → α)
    (hg : ∀ a, p (g a) = p a) (l : List α) :
    (l.map (fun a => if p a then g a else a)).filter p = (l.filter p).map g := by
  induction l with
  | nil => rfl
  | cons x xs ih =>
    by_cases hx : p x
    · simp [List.filter_cons, hx, hg, ih]
    · simp [List.filter_cons, hx, ih]

theorem find?_append_of_none {α : Type} (p : α → Bool) (l₁ l₂ : List α)
    (h : l₁.find? p = none) : (l₁ ++ l₂).find? p = l₂.find? p := by
  induction l₁ with
  | nil => rfl
  | cons x xs ih =>
    rw [List.find?_cons] at h
    by_cases hx : p x
    · simp [hx] at h
    · simp only [List.cons_append, List.find?_cons, hx]
      exact ih (by simpa [hx] using h)

/-! ## Behaviour of `save_response` on its key -/

theorem responseKey_preserved (user_id question_id : Nat)
    (ta pp : Option String) (t : Nat) (r : UserResponse) :
    responseKeyMatches user_id question_id
      { r with text_answer := ta, photo := pp, updated_at := t } =
    responseKeyMatches user_id question_id r := rfl

theorem response_state_save (t user_id question_id : Nat)
    (ta pp : Option String) (db : DB) :
    response_state user_id question_id (save_response t user_id question_id ta pp db) =
      some (ta, pp, t) := by
  unfold response_state save_response
  split
  · next r0 hfind =>
    rw [find?_map_ite (responseKeyMatches user_id question_id)
      (fun r => { r with text_answer := ta, photo := pp, updated_at := t })
      (fun r => responseKey_preserved user_id question_id ta pp t r)]
    rw [hfind]
    simp
  · next hfind =>
    rw [find?_append_of_none _ _ _ hfind]
    simp [List.find?_cons, responseKeyMatches]

theorem response_rows_save_length (t user_id question_id : Nat)
    (ta pp : Option String) (db : DB)
    (h0 : (response_rows user_id question_id db).length ≤ 1) :
    (response_rows user_id question_id (save_response t user_id question_id ta pp db)).length = 1 := by
  unfold response_rows at h0 ⊢
  unfold save_response
  split
  · next r0 hfind =>
    rw [filter_map_ite (responseKeyMatches user_id question_id)
      (fun r => { r with text_answer := ta, photo := pp, updated_at := t })
      (fun r => responseKey_preserved user_id question_id ta pp t r)]
    rw [List.length_map]
    have hmem : r0 ∈ db.responses.filter (responseKeyMatches user_id question_id) := by
      rw [List.mem_filter]
      exact ⟨List.mem_of_find?_eq_some hfind, List.find?_some hfind⟩
    have h1 : 1 ≤ (db.responses.filter (responseKeyMatches user_id question_id)).length :=
      List.length_pos.mpr (List.ne_nil_of_mem hmem)
    exact Nat.le_antisymm h0 h1
  · next hfind =>
    rw [List.filter_append]
    have hfe : db.responses.filter (responseKeyMatches user_id question_id) = [] := by
      rw [List.filter_eq_nil_iff]
      intro r hr hpr
      exact (List.find?_eq_none.mp hfind r hr) hpr
    rw [hfe]
    simp [responseKeyMatches]

theorem exactly_one_none (c : Nat × Option String × Option String)
    (h : exactly_one c = true) : c.2.1 = none ∨ c.2.2 = none := by
  rcases c with ⟨t, ta, pp⟩
  cases ta <;> cases pp <;> simp_all [exactly_one]

theorem save_response_no_both (t user_id question_id : Nat)
    (ta pp : Option String) (db : DB)
    (hcall : ta = none ∨ pp = none)
    (hdb : ∀ r ∈ db.responses, no_both r = true) :
    ∀ r ∈ (save_response t user_id question_id ta pp db).responses, no_both r = true := by
  intro r hr
  unfold save_response at hr
  split at hr
  · next r0 hfind =>
    rcases List.mem_map.mp hr with ⟨r1, hr1, heq⟩
    by_cases hk : responseKeyMatches user_id question_id r1
    · subst heq
      simp only [hk, if_true]
      rcases hcall with h | h <;> simp [no_both, h]
    · subst heq
      simp only [hk, if_false]
      exact hdb r1 hr1
  · next hfind =>
    rcases List.mem_append.mp hr with h | h
    · exact hdb r h
    · have : r = { user_id := user_id
                   question_id := question_id
                   text_answer := ta
                   photo := pp
                   created_at := t
                   updated_at := t } := by
        simpa using h
      subst this
      rcases hcall with h' | h' <;> simp [no_both, h']

theorem apply_answers_no_both (user_id question_id : Nat)
    (answers : List (Nat × Option String × Option String)) (db : DB)
    (hcalls : ∀ c ∈ answers, exactly_one c = true)
    (hdb : ∀ r ∈ db.responses, no_both r = true) :
    ∀ r ∈ (apply_answers user_id question_id answers db).responses, no_both r = true := by
  induction answers generalizing db with
  | nil => exact hdb
  | cons c rest ih =>
    have hc : exactly_one c = true := hcalls c (List.mem_cons_self c rest)
    have hrest : ∀ x ∈ rest, exactly_one x = true :=
      fun x hx => hcalls x (List.mem_cons_of_mem c hx)
    exact ih (save_response c.1 user_id question_id c.2.1 c.2.2 db) hrest
      (save_response_no_both c.1 user_id question_id c.2.1 c.2.2 db
        (exactly_one_none c hc) hdb)

/-- C4: answering the same question any number of times leaves exactly one
Response row for the (applicant, question) pair, holding the value of the most
recent answer with `updated_at` refreshed to the last call's time; the starting
store satisfies the DB's `unique_together` bound of at most one row per pair. -/
theorem c4_save_response_upsert (user_id question_id : Nat) (db : DB)
    (answers : List (Nat × Option String × Option String))
    (la : Nat × Option String × Option String)
    (h0 : (response_rows user_id question_id db).length ≤ 1)
    (hlast : answers.getLast? = some la) :
    (response_rows user_id question_id
        (apply_answers user_id question_id answers db)).length = 1 ∧
    response_state user_id question_id (apply_answers user_id question_id answers db) =
      some (la.2.1, la.2.2, la.1) := by
  induction answers generalizing db with
  | nil => cases hlast
  | cons c rest ih =>
    cases rest with
    | nil =>
      have hla : c = la := by simpa using hlast
      subst hla
      constructor
      · exact response_rows_save_length c.1 user_id question_id c.2.1 c.2.2 db h0
      · exact response_state_save c.1 user_id question_id c.2.1 c.2.2 db
    | cons d rest' =>
      have hlast' : (d :: rest').getLast? = some la := by
        rw [List.getLast?_cons_cons] at hlast
        exact hlast
      have h0' : (response_rows user_id question_id
          (save_response c.1 user_id question_id c.2.1 c.2.2 db)).length ≤ 1 :=
        Nat.le_of_eq (response_rows_save_length c.1 user_id question_id c.2.1 c.2.2 db h0)
      exact ih (save_response c.1 user_id question_id c.2.1 c.2.2 db) h0' hlast'

/-- C4 witness: two answers to the same question starting from an empty store
leave one row holding the second answer. -/
theorem c4_save_response_upsert_witness :
    ((response_rows 1 5
        (apply_answers 1 5 [(10, some "first", none), (20, some "second", none)]
          { users := [], questions := [], responses := [], applications := [],
            next_user_id := 1 })).length = 1 ∧
      response_state 1 5
        (apply_answers 1 5 [(10, some "first", none), (20, some "second", none)]
          { users := [], questions := [], responses := [], applications := [],
            next_user_id := 1 }) = some (some "second", none, 20)) :=
  c4_save_response_upsert 1 5
    { users := [], questions := [], responses := [], applications := [], next_user_id := 1 }
    [(10, some "first", none), (20, some "second", none)] (20, some "second", none)
    (by decide) (by decide)

/-- C10: a `save_response` call supplying only a text answer nulls the stored
photo reference, one supplying only a photo nulls the stored text; after any
sequence of calls each supplying exactly one of the two, starting from a store
whose rows never hold both, no row holds both a text answer and a photo. -/
theorem c10_modality_replacement (t user_id question_id : Nat) (v p : String)
    (db : DB) (answers : List (Nat × Option String × Option String))
    (hcalls : ∀ c ∈ answers, exactly_one c = true)
    (hdb : ∀ r ∈ db.responses, no_both r = true) :
    response_state user_id question_id
        (save_response t user_id question_id (some v) none db) = some (some v, none, t) ∧
    response_state user_id question_id
        (save_response t user_id question_id none (some p) db) = some (none, some p, t) ∧
    ∀ r ∈ (apply_answers user_id question_id answers db).responses, no_both r = true :=
  ⟨response_state_save t user_id question_id (some v) none db,
   response_state_save t user_id question_id none (some p) db,
   apply_answers_no_both user_id question_id answers db hcalls hdb⟩

/-- C10 witness: alternating text and photo answers over an existing text-only
row never produce a row holding both modalities. -/
theorem c10_modality_replacement_witness :
    ((∀ c ∈ [((2 : Nat), some "txt", (none : Option String)),
             (3, none, some "ph.jpg")], exactly_one c = true) ∧
     (∀ r ∈ ({ users := [], questions := [],
               responses := [{ user_id := 1, question_id := 5, text_answer := some "old",
                               photo := none, created_at := 0, updated_at := 0 }],
               applications := [], next_user_id := 1 } : DB).responses, no_both r = true) ∧
     ∀ r ∈ (apply_answers 1 5
         [((2 : Nat), some "txt", (none : Option String)), (3, none, some "ph.jpg")]
         { users := [], questions := [],
           responses := [{ user_id := 1, question_id := 5, text_answer := some "old",
                           photo := none, created_at := 0, updated_at := 0 }],
           applications := [], next_user_id := 1 }).responses, no_both r = true) :=
  ⟨by decide, by decide,
   (c10_modality_replacement 0 1 5 "v" "p"
      { users := [], questions := [],
        responses := [{ user_id := 1, question_id := 5, text_answer := some "old",
                        photo := none, created_at := 0, updated_at := 0 }],
        applications := [], next_user_id := 1 }
      [((2 : Nat), some "txt", (none : Option String)), (3, none, some "ph.jpg")]
      (by decide) (by decide)).2.2⟩

/-! ## Round-trip of the choice keyboard (claim C6) -/

theorem pyReplaceAux_no_occur (old new s : List Char)
    (h : containsSub old s = false) :
    ∀ fuel, pyReplaceAux old new fuel s = s := by
  induction s with
  | nil => intro fuel; cases fuel <;> rfl
  | cons c rest ih =>
    intro fuel
    cases fuel with
    | zero => rfl
    | succ k =>
      unfold containsSub at h
      rw [Bool.or_eq_false_iff] at h
      simp only [pyReplaceAux, h.1, Bool.false_eq_true, if_false]
      rw [ih h.2 k]

theorem pyReplaceAux_strip (a : Char) (o' label : List Char)
    (h : containsSub (a :: o') label = false) :
    pyReplaceAux (a :: o') [] ((a :: o') ++ label).length ((a :: o') ++ label) = label := by
  have hpre : (a :: o').isPrefixOf (a :: (o' ++ label)) = true := by
    rw [List.isPrefixOf_iff_prefix, ← List.cons_append]
    exact List.prefix_append _ _
  rw [List.cons_append, List.length_cons]
  simp only [pyReplaceAux, hpre, if_true, List.nil_append]
  rw [List.length_cons, List.drop_succ_cons, List.drop_left]
  exact pyReplaceAux_no_occur (a :: o') [] label h _

/-- C6 (amended): for every choice label presented by the rendered keyboard that
does not contain the substring used as the callback token tag, selecting the
button yields back the literal label and `save_response` stores it verbatim. -/
theorem c6_choice_roundtrip (s label : String)
    (hmem : label ∈ choices_list s)
    (hno : containsSub ("choice_".data) label.data = false) :
    ({ text := label, callback_data := "choice_" ++ label } : InlineButton)
        ∈ get_choices_keyboard s ∧
    choice_answer ("choice_" ++ label) = label ∧
    ∀ (t user_id question_id : Nat) (db : DB),
      response_state user_id question_id
          (save_response t user_id question_id
            (some (choice_answer ("choice_" ++ label))) none db) =
        some (some label, none, t) := by
  have hans : choice_answer ("choice_" ++ label) = label := by
    unfold choice_answer pyReplace
    have hdat : ("choice_" ++ label).data = "choice_".data ++ label.data :=
      String.data_append "choice_" label
    rw [hdat]
    have : pyReplaceAux ("choice_".data) [] ("choice_".data ++ label.data).length
        ("choice_".data ++ label.data) = label.data :=
      pyReplaceAux_strip 'c' "hoice_".data label.data hno
    rw [this]
  refine ⟨?_, hans, ?_⟩
  · exact List.mem_map_of_mem _ hmem
  · intro t user_id question_id db
    rw [hans]
    exact response_state_save t user_id question_id (some label) none db

/-- C6 witness: the choice "Да" of a two-option question round-trips verbatim. -/
theorem c6_choice_roundtrip_witness :
    ("Да" ∈ choices_list "Да,Нет") ∧
    (containsSub ("choice_".data) "Да".data = false) ∧
    choice_answer ("choice_" ++ "Да") = "Да" :=
  ⟨by decide, by decide,
   (c6_choice_roundtrip "Да,Нет" "Да" (by decide) (by decide)).2.1⟩

/-- C6 counterexample: a choice string containing the callback token tag is
rendered as a button whose selection does not return the literal choice — the
handler strips every occurrence of the tag, not only the leading one. -/
theorem c6_counterexample :
    get_choices_keyboard "choice_a" =
      [{ text := "choice_a", callback_data := "choice_choice_a" }] ∧
    choice_answer "choice_choice_a" = "a" ∧
    ¬ ("a" : String) = "choice_a" := by
  refine ⟨by decide, by decide, by decide⟩

/-! ## Concrete fixtures used by witnesses -/

/-- A text question mapped to the full-name field. -/
def qText1 : Question :=
  { id := 1, order := 1, question_type := "text", text := "q1", choices := none,
    image := none, field_name := some "full_name", is_required := true, is_active := true }

/-- A photo question mapped to the main passport page. -/
def qPhoto2 : Question :=
  { id := 2, order := 2, question_type := "photo", text := "q2", choices := none,
    image := none, field_name := some "passport_main", is_required := true, is_active := true }

/-- An in-progress applicant profile currently on question 2. -/
def uFix : UserProfile :=
  { id := 1, telegram_id := 100, username := none, first_name := none, last_name := none,
    current_question_id := some 2, is_team_member := true,
    is_registration_complete := false, created_at := 0, updated_at := 0 }

/-- An in-progress application row for `uFix`. -/
def appFix : StaffApplication :=
  { user_id := 1, status := "in_progress", position := some "pos", full_name := none,
    address := none, phone := none, email := none, passport_main := none,
    passport_registration := none, snils := none, inn := none, marital_status := none,
    children := none, emergency_contact := none, additional_info := none,
    created_at := 0, updated_at := 0, completed_at := none }

/-- Store for the in-progress fixtures. -/
def dbFix : DB :=
  { users := [uFix], questions := [qText1, qPhoto2], responses := [],
    applications := [appFix], next_user_id := 2 }

/-- Bot state of `uFix` answering question 2. -/
def stFix : BotState :=
  { db := dbFix,
    session := { fsm := FsmState.answering_questions, current_question_id := some 2,
                 current_question_order := some 2, position := some "pos" },
    sent := [] }

/-- C3: a free-text message while the current question expects a photo appends
only the re-prompt message; the store, the session and everything else in the
bot state are unchanged. -/
theorem c3_photo_reprompt_no_state_change (t telegram_id : Nat) (text : String)
    (st : BotState) (qid : Nat) (q : Question)
    (hsess : st.session.current_question_id = some qid)
    (hq : get_question_by_id st.db.questions qid = some q)
    (hphoto : q.question_type = "photo") :
    process_text_answer t telegram_id text st =
      { st with sent := st.sent ++ [PHOTO_REPROMPT_MESSAGE] } := by
  unfold process_text_answer
  simp only [hsess, hq, hphoto, if_true]

/-- C3 witness: the fixture applicant on the photo question gets re-prompted on
text and nothing else changes. -/
theorem c3_photo_reprompt_no_state_change_witness :
    (stFix.session.current_question_id = some 2) ∧
    (get_question_by_id stFix.db.questions 2 = some qPhoto2) ∧
    (qPhoto2.question_type = "photo") ∧
    process_text_answer 7 100 "hello" stFix =
      { stFix with sent := stFix.sent ++ [PHOTO_REPROMPT_MESSAGE] } :=
  ⟨rfl, by decide, rfl,
   c3_photo_reprompt_no_state_change 7 100 "hello" stFix 2 qPhoto2 rfl (by decide) rfl⟩

/-! ## Application field mapping (claim C5) -/

theorem apply_field_user_id (a : StaffApplication) (f v : String) :
    (apply_field a f v).user_id = a.user_id := by
  unfold apply_field
  split <;> rfl

theorem find_application_update_field (t user_id : Nat) (f v : String) (db : DB) :
    find_application user_id (update_application_field t user_id f v db) =
      (find_application user_id db).map
        (fun a => { apply_field a f v with updated_at := t }) := by
  unfold find_application update_application_field
  exact find?_map_ite _ _ (fun a => by simp [apply_field_user_id]) db.applications

/-- C5: answering a question with `field_name = "phone"` sets the application's
phone column to the answer; a field name outside the whitelist, or an absent
one, leaves the whole store untouched (the structured write is skipped). -/
theorem c5_field_mapping (t user_id : Nat) (v : String) (db : DB)
    (a : StaffApplication)
    (happ : find_application user_id db = some a) :
    find_application user_id (save_to_application t user_id (some "phone") v db) =
      some { apply_field a "phone" v with updated_at := t } ∧
    ({ apply_field a "phone" v with updated_at := t } : StaffApplication).phone = some v ∧
    (∀ fname, fname ∉ valid_fields →
      save_to_application t user_id (some fname) v db = db) ∧
    save_to_application t user_id none v db = db := by
  refine ⟨?_, ?_, ?_, rfl⟩
  · show find_application user_id
      (if ("phone" : String) = "" then db
       else if ("phone" : String) ∈ valid_fields then
         update_application_field t user_id "phone" v db
       else db) = _
    rw [if_neg (by decide), if_pos (by decide)]
    rw [find_application_update_field, happ]
    rfl
  · rfl
  · intro fname hf
    show (if fname = "" then db
          else if fname ∈ valid_fields then update_application_field t user_id fname v db
          else db) = db
    by_cases h0 : fname = ""
    · rw [if_pos h0]
    · rw [if_neg h0, if_neg hf]

/-- C5 witness: a phone answer lands in the fixture application's phone column,
and a field name outside the whitelist leaves the store untouched. -/
theorem c5_field_mapping_witness :
    (find_application 1 dbFix = some appFix) ∧
    find_application 1 (save_to_application 3 1 (some "phone") "+7900" dbFix) =
      some { apply_field appFix "phone" "+7900" with updated_at := 3 } ∧
    ("nickname" ∉ valid_fields) ∧
    save_to_application 3 1 (some "nickname") "+7900" dbFix = dbFix :=
  ⟨by decide,
   (c5_field_mapping 3 1 "+7900" dbFix appFix (by decide)).1,
   by decide,
   (c5_field_mapping 3 1 "+7900" dbFix appFix (by decide)).2.2.1 "nickname" (by decide)⟩

/-! ## Start-trigger short circuit (claim C8) -/

/-- C8: for an existing applicant whose registration is complete, the start
trigger emits only the already-completed message, leaves the whole store
untouched, and ends with a cleared session (the flow is not re-entered). -/
theorem c8_start_short_circuit (t telegram_id : Nat)
    (username first_name last_name : Option String) (st : BotState) (u : UserProfile)
    (hu : get_user telegram_id st.db = some u)
    (hc : u.is_registration_complete = true) :
    cmd_start t telegram_id username first_name last_name st =
      { db := st.db, session := clearedSession,
        sent := st.sent ++ [ALREADY_COMPLETE_MESSAGE] } := by
  unfold cmd_start get_or_create_user
  simp only [hu, hc, if_true]

/-- A registered applicant profile. -/
def uDone : UserProfile :=
  { id := 3, telegram_id := 200, username := some "zal", first_name := none,
    last_name := none, current_question_id := none, is_team_member := true,
    is_registration_complete := true, created_at := 0, updated_at := 1 }

/-- The completed application row of `uDone`, finished at time 1. -/
def appDone : StaffApplication :=
  { user_id := 3, status := "completed", position := some "pos",
    full_name := some "name", address := none, phone := none, email := none,
    passport_main := none, passport_registration := none, snils := none, inn := none,
    marital_status := none, children := none, emergency_contact := none,
    additional_info := none, created_at := 0, updated_at := 1, completed_at := some 1 }

/-- Store containing the completed applicant. -/
def dbDone : DB :=
  { users := [uDone], questions := [qText1, qPhoto2],
    responses := [{ user_id := 3, question_id := 1, text_answer := some "name",
                    photo := none, created_at := 0, updated_at := 0 }],
    applications := [appDone], next_user_id := 4 }

/-- Bot state of the completed applicant with an idle session. -/
def stDone : BotState :=
  { db := dbDone, session := clearedSession, sent := [] }

/-- C8 witness: the completed fixture applicant issuing the start trigger again
changes nothing in the store. -/
theorem c8_start_short_circuit_witness :
    (get_user 200 stDone.db = some uDone) ∧
    (uDone.is_registration_complete = true) ∧
    cmd_start 9 200 (some "zal") none none stDone =
      { db := stDone.db, session := clearedSession,
        sent := stDone.sent ++ [ALREADY_COMPLETE_MESSAGE] } :=
  ⟨by decide, rfl,
   c8_start_short_circuit 9 200 (some "zal") none none stDone uDone (by decide) rfl⟩

/-! ## Empty catalog at the position step (claim C9) -/

theorem get_or_create_application_questions (t user_id : Nat) (db : DB) :
    (get_or_create_application t user_id db).questions = db.questions := by
  unfold get_or_create_application
  split <;> rfl

theorem get_or_create_application_users (t user_id : Nat) (db : DB) :
    (get_or_create_application t user_id db).users = db.users := by
  unfold get_or_create_application
  split <;> rfl

/-- C9: if no active question exists when the position answer arrives, the
session is cleared without ever entering the answering state, the user rows
(hence `is_registration_complete`) are untouched, and the informational
message is emitted after the mission text. -/
theorem c9_empty_catalog_terminates (t telegram_id : Nat) (text : String)
    (st : BotState)
    (hempty : get_first_question st.db.questions = none) :
    (process_position t telegram_id text st).session = clearedSession ∧
    (process_position t telegram_id text st).db.users = st.db.users ∧
    (process_position t telegram_id text st).sent =
      st.sent ++ [MISSION_MESSAGE, NO_QUESTIONS_MESSAGE] := by
  unfold process_position
  cases hget : get_user telegram_id st.db with
  | none =>
    simp [hget, hempty]
  | some u =>
    have hq : get_first_question
        (update_application_position t u.id text
          (get_or_create_application t u.id st.db)).questions = none := by
      show get_first_question (get_or_create_application t u.id st.db).questions = none
      rw [get_or_create_application_questions]
      exact hempty
    simp [hget, hq]
    show (get_or_create_application t u.id st.db).users = st.db.users
    exact get_or_create_application_users t u.id st.db

/-- Store with an applicant but no questions at all. -/
def dbNoQ : DB :=
  { users := [uFix], questions := [], responses := [],
    applications := [appFix], next_user_id := 2 }

/-- Bot state waiting for the position answer over the empty catalog. -/
def stNoQ : BotState :=
  { db := dbNoQ,
    session := { fsm := FsmState.asking_position, current_question_id := none,
                 current_question_order := none, position := none },
    sent := [] }

/-- C9 witness: over the empty catalog the fixture session terminates cleared
with the informational message, users untouched. -/
theorem c9_empty_catalog_terminates_witness :
    (get_first_question stNoQ.db.questions = none) ∧
    (process_position 4 100 "pos" stNoQ).session = clearedSession ∧
    (process_position 4 100 "pos" stNoQ).db.users = stNoQ.db.users ∧
    (process_position 4 100 "pos" stNoQ).sent =
      stNoQ.sent ++ [MISSION_MESSAGE, NO_QUESTIONS_MESSAGE] := by
  refine ⟨rfl, ?_⟩
  have h := c9_empty_catalog_terminates 4 100 "pos" stNoQ rfl
  exact ⟨h.1, h.2.1, h.2.2⟩

/-! ## Completion re-trigger (claim C7) -/

theorem get_user_update_user_completed (t telegram_id : Nat) (db : DB) :
    get_user telegram_id (update_user_completed t telegram_id db) =
      (get_user telegram_id db).map
        (fun u => { u with is_registration_complete := true, current_question_id := none, updated_at := t }) := by
  unfold get_user update_user_completed
  dsimp only
  exact find?_map_ite (fun u : UserProfile => decide (u.telegram_id = telegram_id))
    (fun u => { u with is_registration_complete := true, current_question_id := none, updated_at := t })
    (fun u => rfl) db.users

theorem find_application_complete (t user_id : Nat) (db : DB) :
    find_application user_id (complete_application t user_id db) =
      (find_application user_id db).map
        (fun a => { a with status := "completed", completed_at := some t, updated_at := t }) := by
  unfold find_application complete_application
  dsimp only
  exact find?_map_ite (fun a : StaffApplication => decide (a.user_id = user_id))
    (fun a => { a with status := "completed", completed_at := some t, updated_at := t })
    (fun a => rfl) db.applications

/-- C7 (amended): re-invoking the completion logic for an already completed
applicant leaves the status equal to "completed" (so unchanged), but overwrites
`completed_at` with the time of the re-invocation and emits the completion
message once more. -/
theorem c7_completion_retrigger (t2 telegram_id : Nat) (q : Question)
    (st : BotState) (u : UserProfile) (a : StaffApplication)
    (hnext : get_next_question st.db.questions q.order = none)
    (hu : get_user telegram_id st.db = some u)
    (ha : find_application u.id st.db = some a)
    (hstatus : a.status = "completed") :
    find_application u.id (move_to_next_question t2 telegram_id q st).db =
      some { a with status := "completed", completed_at := some t2, updated_at := t2 } ∧
    ({ a with status := "completed", completed_at := some t2, updated_at := t2 } : StaffApplication).status = a.status ∧
    (move_to_next_question t2 telegram_id q st).sent =
      st.sent ++ [COMPLETION_MESSAGE] := by
  unfold move_to_next_question
  simp only [hnext]
  have hgu : get_user telegram_id (update_user_completed t2 telegram_id st.db) =
      some { u with is_registration_complete := true, current_question_id := none, updated_at := t2 } := by
    rw [get_user_update_user_completed, hu]
    rfl
  simp only [hgu]
  refine ⟨?_, by rw [hstatus], by trivial⟩
  rw [find_application_complete]
  show (find_application u.id st.db).map _ = _
  rw [ha]
  rfl

/-- C7 witness: re-triggering completion for the finished fixture applicant at
time 5 rewrites `completed_at` to 5. -/
theorem c7_completion_retrigger_witness :
    (get_next_question stDone.db.questions qPhoto2.order = none) ∧
    (get_user 200 stDone.db = some uDone) ∧
    (find_application uDone.id stDone.db = some appDone) ∧
    (appDone.status = "completed") ∧
    find_application uDone.id (move_to_next_question 5 200 qPhoto2 stDone).db =
      some { appDone with status := "completed", completed_at := some 5, updated_at := 5 } :=
  ⟨by decide, by decide, by decide, rfl,
   (c7_completion_retrigger 5 200 qPhoto2 stDone uDone appDone
      (by decide) (by decide) (by decide) rfl).1⟩

/-- C7 counterexample: the fixture application completed at time 1; re-invoking
the completion logic at time 2 changes `completed_at` from 1 to 2 and emits
the completion message again. -/
theorem c7_counterexample :
    ((find_application 3 stDone.db).map (fun a => a.completed_at) = some (some 1)) ∧
    ((find_application 3 (move_to_next_question 2 200 qPhoto2 stDone).db).map
        (fun a => a.completed_at) = some (some 2)) ∧
    ¬ (some (2 : Nat) = some (1 : Nat)) ∧
    (move_to_next_question 2 200 qPhoto2 stDone).sent =
      stDone.sent ++ [COMPLETION_MESSAGE] := by
  refine ⟨by decide, by decide, by decide, by decide⟩

/-! ## Storage-failure behaviour of the text-answer handler (claim C2) -/

/-- Applicant profile currently on question 1. -/
def uProg : UserProfile :=
  { id := 1, telegram_id := 100, username := none, first_name := none, last_name := none,
    current_question_id := some 1, is_team_member := true,
    is_registration_complete := false, created_at := 0, updated_at := 0 }

/-- Store for the applicant answering question 1 of a two-question catalog. -/
def dbProg : DB :=
  { users := [uProg], questions := [qText1, qPhoto2], responses := [],
    applications := [appFix], next_user_id := 2 }

theorem minByOrder_eq_none (l : List Question) : minByOrder l = none ↔ l = [] := by
  cases l with
  | nil => simp [minByOrder]
  | cons q rest =>
    rw [minByOrder]
    cases h : minByOrder rest with
    | none => simp only [h]; simp
    | some m => simp only [h]; split <;> simp

theorem minByOrder_mem {l : List Question} {m : Question}
    (h : minByOrder l = some m) : m ∈ l := by
  induction l generalizing m with
  | nil => cases h
  | cons q rest ih =>
    rw [minByOrder] at h
    cases hr : minByOrder rest with
    | none =>
      simp only [hr, Option.some.injEq] at h
      subst h
      exact List.mem_cons_self q rest
    | some p =>
      simp only [hr] at h
      split at h
      · injection h with h
        subst h
        exact List.mem_cons_of_mem q (ih hr)
      · injection h with h
        subst h
        exact List.mem_cons_self q rest

theorem minByOrder_le {l : List Question} {m : Question}
    (h : minByOrder l = some m) : ∀ x ∈ l, m.order ≤ x.order := by
  induction l generalizing m with
  | nil => cases h
  | cons q rest ih =>
    rw [minByOrder] at h
    cases hr : minByOrder rest with
    | none =>
      simp only [hr, Option.some.injEq] at h
      subst h
      have hrest : rest = [] := (minByOrder_eq_none rest).mp hr
      subst hrest
      intro x hx
      rcases List.mem_singleton.mp hx with rfl
      exact Nat.le_refl _
    | some p =>
      simp only [hr] at h
      split at h
      · next hlt =>
        injection h with h
        subst h
        intro x hx
        rcases List.mem_cons.mp hx with rfl | hx
        · exact Nat.le_of_lt hlt
        · exact ih hr x hx
      · next hge =>
        injection h with h
        subst h
        intro x hx
        rcases List.mem_cons.mp hx with rfl | hx
        · exact Nat.le_refl _
        · exact Nat.le_trans (Nat.le_of_not_lt hge) (ih hr x hx)

theorem gnq_eq (qs : List Question) (o : Nat) :
    get_next_question qs o =
      minByOrder ((qs.filter (fun q => q.is_active)).filter
        (fun q => decide (o < q.order))) := by
  unfold get_next_question
  rw [List.filter_filter]
  congr 1
  exact List.filter_congr (fun q _ => Bool.and_comm q.is_active (decide (o < q.order)))

theorem filter_eq_erase {l : List Question} {m : Question} (P : Question → Bool)
    (hm : m ∈ l) (hnd : l.Nodup) (hPm : P m = false)
    (hP : ∀ q ∈ l, q ≠ m → P q = true) :
    l.filter P = l.erase m := by
  induction l with
  | nil => cases hm
  | cons a rest ih =>
    by_cases ha : a = m
    · subst ha
      rw [List.erase_cons_head, List.filter_cons_of_neg (by simp [hPm])]
      apply List.filter_eq_self.mpr
      intro q hq
      have hqa : q ≠ a := fun hcontra =>
        (List.nodup_cons.mp hnd).1 (hcontra ▸ hq)
      exact hP q (List.mem_cons_of_mem a hq) hqa
    · have hPa : P a = true := hP a (List.mem_cons_self a rest) ha
      rw [List.erase_cons_tail (by simp [ha]), List.filter_cons_of_pos hPa]
      have hm' : m ∈ rest := by
        rcases List.mem_cons.mp hm with h | h
        · exact absurd h.symm ha
        · exact h
      rw [ih hm' (List.nodup_cons.mp hnd).2
        (fun q hq hqm => hP q (List.mem_cons_of_mem a hq) hqm)]

theorem filter_gt_shrink (A : List Question) (o : Nat) (m : Question)
    (hom : o < m.order) :
    A.filter (fun q => decide (m.order < q.order)) =
      (A.filter (fun q => decide (o < q.order))).filter
        (fun q => decide (m.order < q.order)) := by
  rw [List.filter_filter]
  apply List.filter_congr
  intro q _
  by_cases h : m.order < q.order
  · have ho : o < q.order := Nat.lt_trans hom h
    simp [h, ho]
  · simp [h]

theorem traverse_from_spec (qs : List Question)
    (hnd : ((qs.filter (fun q => q.is_active)).map (fun q => q.order)).Nodup) :
    ∀ (fuel o : Nat),
      ((qs.filter (fun q => q.is_active)).filter
        (fun q => decide (o < q.order))).length ≤ fuel →
      (traverse_from qs fuel o).Perm
        ((qs.filter (fun q => q.is_active)).filter (fun q => decide (o < q.order))) ∧
      ascendingFrom o (traverse_from qs fuel o) = true := by
  intro fuel
  induction fuel with
  | zero =>
    intro o hlen
    have hnil : (qs.filter (fun q => q.is_active)).filter
        (fun q => decide (o < q.order)) = [] :=
      List.eq_nil_of_length_eq_zero (Nat.le_zero.mp hlen)
    rw [traverse_from, hnil]
    exact ⟨List.Perm.refl _, rfl⟩
  | succ k ih =>
    intro o hlen
    rw [traverse_from]
    cases hnq : get_next_question qs o with
    | none =>
      simp only [hnq]
      have hS : (qs.filter (fun q => q.is_active)).filter
          (fun q => decide (o < q.order)) = [] := by
        rw [gnq_eq] at hnq
        exact (minByOrder_eq_none _).mp hnq
      rw [hS]
      exact ⟨List.Perm.refl _, rfl⟩
    | some m =>
      simp only [hnq]
      have hnq' : minByOrder ((qs.filter (fun q => q.is_active)).filter
          (fun q => decide (o < q.order))) = some m := by
        rw [← gnq_eq]
        exact hnq
      have hmS := minByOrder_mem hnq'
      have hmin := minByOrder_le hnq'
      have hom : o < m.order := by
        have hmem := (List.mem_filter.mp hmS).2
        simpa using hmem
      have hA_nodup : (qs.filter (fun q => q.is_active)).Nodup :=
        List.Nodup.of_map _ hnd
      have hS_nodup : ((qs.filter (fun q => q.is_active)).filter
          (fun q => decide (o < q.order))).Nodup := hA_nodup.filter _
      have hinj := List.inj_on_of_nodup_map hnd
      have hSnext : (qs.filter (fun q => q.is_active)).filter
          (fun q => decide (m.order < q.order)) =
          ((qs.filter (fun q => q.is_active)).filter
            (fun q => decide (o < q.order))).erase m := by
        rw [filter_gt_shrink _ o m hom]
        apply filter_eq_erase _ hmS hS_nodup
        · simp
        · intro x hx hxm
          have hxA : x ∈ qs.filter (fun q => q.is_active) := (List.mem_filter.mp hx).1
          have hmA : m ∈ qs.filter (fun q => q.is_active) := (List.mem_filter.mp hmS).1
          have hle : m.order ≤ x.order := hmin x hx
          have hlt : m.order < x.order :=
            Nat.lt_of_le_of_ne hle (fun hc => hxm (hinj hxA hmA hc.symm))
          simpa using hlt
      have hlen' : ((qs.filter (fun q => q.is_active)).filter
          (fun q => decide (m.order < q.order))).length ≤ k := by
        rw [hSnext, List.length_erase_of_mem hmS]
        have hpos : 1 ≤ ((qs.filter (fun q => q.is_active)).filter
            (fun q => decide (o < q.order))).length :=
          List.length_pos.mpr (List.ne_nil_of_mem hmS)
        omega
      obtain ⟨ihP, ihA⟩ := ih m.order hlen'
      constructor
      · have h1 : (m :: traverse_from qs k m.order).Perm
            (m :: ((qs.filter (fun q => q.is_active)).filter
              (fun q => decide (o < q.order))).erase m) := by
          apply List.Perm.cons
          rw [← hSnext]
          exact ihP
        exact h1.trans (List.perm_cons_erase hmS).symm
      · simp [ascendingFrom, hom, ihA]

/-- C1 (amended): `get_next_question` always — for every catalog, ties or not —
returns an active question whose order strictly exceeds its argument (or none);
and, provided the active questions carry pairwise distinct order values, the
traversal that starts at `get_first_question` and repeatedly applies
`get_next_question` to the current question's order visits every active
question exactly once, in strictly ascending order.  (With duplicate orders the
strict `>` lookup skips tied questions; see the counterexample.) -/
theorem c1_next_question_traversal (qs : List Question) :
    (∀ (o : Nat) (q : Question), get_next_question qs o = some q →
      q.is_active = true ∧ o < q.order) ∧
    (((qs.filter (fun q => q.is_active)).map (fun q => q.order)).Nodup →
      (traversal qs).Perm (qs.filter (fun q => q.is_active)) ∧
      (traversal qs).Nodup ∧
      strictlyAscending (traversal qs) = true) := by
  refine ⟨?_, ?_⟩
  · intro o q h
    have h' : minByOrder (qs.filter
        (fun q => q.is_active && decide (o < q.order))) = some q := h
    have hm := minByOrder_mem h'
    have hmem := (List.mem_filter.mp hm).2
    refine ⟨(Bool.and_eq_true_iff.mp hmem).1, ?_⟩
    have h2 := (Bool.and_eq_true_iff.mp hmem).2
    simpa using h2
  · intro hnd
    have hA_nodup : (qs.filter (fun q => q.is_active)).Nodup := List.Nodup.of_map _ hnd
    have hinj := List.inj_on_of_nodup_map hnd
    unfold traversal
    cases hfq : get_first_question qs with
    | none =>
      simp only [hfq]
      have hA : qs.filter (fun q => q.is_active) = [] := (minByOrder_eq_none _).mp hfq
      rw [hA]
      exact ⟨List.Perm.refl _, List.nodup_nil, rfl⟩
    | some m =>
      simp only [hfq]
      have hfq' : minByOrder (qs.filter (fun q => q.is_active)) = some m := hfq
      have hmA := minByOrder_mem hfq'
      have hmin := minByOrder_le hfq'
      have hSfirst : (qs.filter (fun q => q.is_active)).filter
          (fun q => decide (m.order < q.order)) =
          (qs.filter (fun q => q.is_active)).erase m := by
        apply filter_eq_erase _ hmA hA_nodup
        · simp
        · intro x hx hxm
          have hle := hmin x hx
          have hlt : m.order < x.order :=
            Nat.lt_of_le_of_ne hle (fun hc => hxm (hinj hx hmA hc.symm))
          simpa using hlt
      have hlen : ((qs.filter (fun q => q.is_active)).filter
          (fun q => decide (m.order < q.order))).length ≤ qs.length := by
        rw [hSfirst, List.length_erase_of_mem hmA]
        have h1 : (qs.filter (fun q => q.is_active)).length ≤ qs.length :=
          List.length_filter_le _ _
        omega
      obtain ⟨hP, hAsc⟩ := traverse_from_spec qs hnd qs.length m.order hlen
      have hperm : (m :: traverse_from qs qs.length m.order).Perm
          (qs.filter (fun q => q.is_active)) := by
        have h1 : (m :: traverse_from qs qs.length m.order).Perm
            (m :: (qs.filter (fun q => q.is_active)).erase m) := by
          apply List.Perm.cons
          rw [← hSfirst]
          exact hP
        exact h1.trans (List.perm_cons_erase hmA).symm
      refine ⟨hperm, (hperm.nodup_iff).mpr hA_nodup, ?_⟩
      show ascendingFrom m.order (traverse_from qs qs.length m.order) = true
      exact hAsc

/-- Active question with order 1. -/
def qTieA : Question :=
  { id := 11, order := 1, question_type := "text", text := "a", choices := none,
    image := none, field_name := none, is_required := true, is_active := true }

/-- A second active question also with order 1. -/
def qTieB : Question :=
  { id := 12, order := 1, question_type := "text", text := "b", choices := none,
    image := none, field_name := none, is_required := true, is_active := true }

/-- Active question with order 2. -/
def qTieC : Question :=
  { id := 13, order := 2, question_type := "text", text := "c", choices := none,
    image := none, field_name := none, is_required := true, is_active := true }

/-- Catalog with a duplicated order value. -/
def catTie : List Question := [qTieA, qTieB, qTieC]

/-- C1 witness: the two-question fixture catalog with distinct orders is
traversed completely in ascending order, and on the tied catalog the
unconditional strictly-greater-order property still holds of the returned
question. -/
theorem c1_next_question_traversal_witness :
    (((dbProg.questions.filter (fun q => q.is_active)).map (fun q => q.order)).Nodup) ∧
    ((traversal dbProg.questions).Perm
        (dbProg.questions.filter (fun q => q.is_active)) ∧
      (traversal dbProg.questions).Nodup ∧
      strictlyAscending (traversal dbProg.questions) = true) ∧
    (get_next_question catTie 1 = some qTieC) ∧
    (qTieC.is_active = true ∧ 1 < qTieC.order) :=
  ⟨by decide, (c1_next_question_traversal dbProg.questions).2 (by decide),
   by decide, (c1_next_question_traversal catTie).1 1 qTieC (by decide)⟩

/-- C1 counterexample: in a catalog where two active questions share order 1,
the traversal never visits the second of them — the strict `order >` lookup
steps straight over the tie — so it does not visit every active question. -/
theorem c1_counterexample :
    (qTieB ∈ catTie.filter (fun q => q.is_active)) ∧
    qTieB ∉ traversal catTie ∧
    ¬ (traversal catTie).Perm (catTie.filter (fun q => q.is_active)) := by
  refine ⟨by decide, by decide, by decide⟩
